import Mathlib

/-!
Shallow embedding of the DMXUSB protocol decoder from
src/CIRCUITPY_disc/dmxusb/dmxusb.py (class DMXUSB).

The Python object is modelled as an explicit record Machine; each method
becomes a Lean function on Machine.  Bytes are Nat values (the value of
b[0] for the one-byte reads).  Writes to the uart are recorded in the
field out; invocations of the callback_dmxin callback are recorded in
the field cb_calls.  Time values (time.monotonic) are rationals.

Python exceptions are modelled with an explicit error component: a step
returns Machine multiplied with Option PyErr, where the Machine part holds
the mutations that happened before the exception was raised (Python
instance attributes keep their values when an exception propagates).

One deliberate point of faithfulness: the method _label_is_DMX_receive
reads the attribute self.universes_out, but the class only ever assigns
self._universes_out (with underscore).  Evaluating self.universes_out
therefore raises AttributeError.  Due to short-circuit evaluation of
the surrounding boolean expression this happens exactly when the stored
label differs from LABEL_DMX_DATA (6) and is at least LABEL_DMX_DATA2
(100).
-/

namespace DMXUSB

set_option maxRecDepth 40000

/-- Python AttributeError, the only exception the modelled code can raise. -/
inductive PyErr where
  | attributeError
deriving DecidableEq

/-- A device profile dictionary (DEVICE_* in the source). -/
structure DeviceMode where
  NAME : String
  ESTA_ID : Nat
  DEVICE_ID : Nat
  UNIVERSE_OUT : Nat
  UNIVERSE_IN : Nat
deriving DecidableEq

def DEVICE_EMULATED_ULTRA_DMX_MICRO : DeviceMode :=
  { NAME := "emulated Ultra DMX Micro", ESTA_ID := 0x6A6B, DEVICE_ID := 0x3,
    UNIVERSE_OUT := 1, UNIVERSE_IN := 0 }

def DEVICE_EMULATED_DMXKING_UltraDMXPro : DeviceMode :=
  { NAME := "emulated DMXKing UltraDMXPro", ESTA_ID := 0x6A6B, DEVICE_ID := 0x2,
    UNIVERSE_OUT := 2, UNIVERSE_IN := 0 }

def DEVICE_DMXUSB : DeviceMode :=
  { NAME := "DMXUSB", ESTA_ID := 0x7FF7, DEVICE_ID := 0x42,
    UNIVERSE_OUT := 3, UNIVERSE_IN := 0 }

def STATE_START : Nat := 0
def STATE_LABEL : Nat := 1
def STATE_LEN_LSB : Nat := 2
def STATE_LEN_MSB : Nat := 3
def STATE_DATA : Nat := 4
def STATE_END : Nat := 5

def MSG_STARTMARK : Nat := 0x7E
def MSG_ENDMARK : Nat := 0xE7

def LABEL_UNDEFINED : Int := -1
def LABEL_ESTA_ID_REQUEST : Int := 77
def LABEL_DEVICE_ID_REQUEST : Int := 78
def LABEL_SERIAL_NUMBER_REQUEST : Int := 10
def LABEL_WIDGET_PARAMETER_REQUEST : Int := 3
def LABEL_WIDGET_PARAMETER_EXTENDED_REQUEST : Int := 53
def LABEL_DMX_DATA : Int := 6
def LABEL_DMX_DATA2 : Int := 100

def MAX_CHANNELS : Nat := 512

/-- The state of one DMXUSB instance: constructor arguments, the mutable
attributes of the object, plus the record of all observable effects
(bytes written to the uart, callback invocations). -/
structure Machine where
  mode : DeviceMode
  universes_out : Nat
  universes_in : Nat
  serial_number : List Nat
  state : Nat
  label : Int
  msg_length : Nat
  data_rest_count : Int
  buffer_data : List Nat
  buffer_data_index : Nat
  last_action : Rat
  out : List Nat
  cb_calls : List (Int × List Nat)

/-- DMXUSB._send_message builds the outbound frame bytes.  Note the source
computes the length high byte from len(data) + 1 while the low byte uses
len(data) unchanged. -/
def sendMessageBytes (label : Nat) (data : List Nat) : List Nat :=
  [MSG_STARTMARK, label, data.length % 256, (data.length + 1) / 256] ++ data ++ [MSG_ENDMARK]

/-- Outbound frame bytes as the specification describes them: both length
bytes are the little-endian encoding of exactly the payload byte count. -/
def sendMessageBytesSpec (label : Nat) (data : List Nat) : List Nat :=
  [MSG_STARTMARK, label, data.length % 256, data.length / 256 % 256] ++ data ++ [MSG_ENDMARK]

def sendMessage (m : Machine) (label : Nat) (data : List Nat) : Machine :=
  { m with out := m.out ++ sendMessageBytes label data }

/-- Byte values of the ASCII literal DMXUSB used in _send_ESTA_ID. -/
def dmxusbLiteralBytes : List Nat := [68, 77, 88, 85, 83, 66]

/-- DMXUSB._send_ESTA_ID: bytes(divmod(esta, 0x100)) yields quotient first,
so the payload starts with the high byte of the ESTA id. -/
def sendESTAID (m : Machine) : Machine :=
  sendMessage m 77 ([m.mode.ESTA_ID / 256, m.mode.ESTA_ID % 256] ++ dmxusbLiteralBytes)

def modeNameBytes (mode : DeviceMode) : List Nat :=
  mode.NAME.data.map Char.toNat

/-- DMXUSB._send_DEVICE_ID. -/
def sendDEVICEID (m : Machine) : Machine :=
  sendMessage m 78 ([m.mode.DEVICE_ID / 256, m.mode.DEVICE_ID % 256] ++ modeNameBytes m.mode)

/-- DMXUSB._send_SERIAL_NUMBER. -/
def sendSERIALNUMBER (m : Machine) : Machine :=
  sendMessage m 10 m.serial_number

/-- DMXUSB._send_WIDGET_PARAMETER. -/
def sendWIDGETPARAMETER (m : Machine) : Machine :=
  sendMessage m 3 [0x03, 0x00, 0x09, 0x01, 0x28]

/-- DMXUSB._send_WIDGET_PARAMETER_EXTENDED. -/
def sendWIDGETPARAMETEREXTENDED (m : Machine) : Machine :=
  sendMessage m 53 [m.universes_out, m.universes_in]

/-- One invocation of the callback_dmxin callback, recorded with the
universe argument and the buffer contents at call time. -/
def callbackDmxin (m : Machine) (uni : Int) : Machine :=
  { m with cb_calls := m.cb_calls ++ [(uni, m.buffer_data)] }

/-- DMXUSB._handle_DMX_data_received: the chain of label and mode tests. -/
def handleDMXDataReceived (m : Machine) : Machine :=
  if m.label = LABEL_DMX_DATA ∧ m.mode = DEVICE_EMULATED_ULTRA_DMX_MICRO then
    callbackDmxin m 0
  else if m.label = LABEL_DMX_DATA ∧ m.mode = DEVICE_EMULATED_DMXKING_UltraDMXPro then
    callbackDmxin (callbackDmxin m 0) 1
  else if m.label = LABEL_DMX_DATA ∧ m.mode = DEVICE_DMXUSB then
    (List.range m.universes_out).foldl (fun acc (u : Nat) => callbackDmxin acc (u : Int)) m
  else if m.label = LABEL_DMX_DATA2 ∧ m.mode = DEVICE_EMULATED_DMXKING_UltraDMXPro then
    callbackDmxin m 0
  else if m.label = LABEL_DMX_DATA2 + 1 ∧ m.mode = DEVICE_EMULATED_DMXKING_UltraDMXPro then
    callbackDmxin m 1
  else if m.mode = DEVICE_DMXUSB then
    callbackDmxin m (m.label - LABEL_DMX_DATA2)
  else m

/-- DMXUSB._buffer_data_clear: reset the write index and zero-fill the
buffer keeping its length. -/
def bufferDataClear (m : Machine) : Machine :=
  { m with buffer_data_index := 0,
           buffer_data := List.replicate m.buffer_data.length 0 }

/-- DMXUSB._label_is_DMX_receive.  The source expression is
label == LABEL_DMX_DATA or (label >= LABEL_DMX_DATA2 and
label < LABEL_DMX_DATA2 + self.universes_out); the instance only has an
attribute _universes_out, never universes_out, so the last comparison
raises AttributeError.  By short-circuiting, the error occurs exactly
when label differs from 6 and is at least 100. -/
def labelIsDMXReceive (m : Machine) : Except PyErr Bool :=
  if m.label = LABEL_DMX_DATA then .ok true
  else if LABEL_DMX_DATA2 ≤ m.label then .error PyErr.attributeError
  else .ok false

/-- DMXUSB._reset_receive_statemanschine (the argument now stands for the
time.monotonic() call). -/
def resetReceiveStatemachine (m : Machine) (now : Rat) : Machine :=
  { bufferDataClear m with
      state := STATE_START, label := LABEL_UNDEFINED, msg_length := 0,
      last_action := now }

/-- DMXUSB._parse: dispatch on the completed label.  When the label is
none of the five request labels, _label_is_DMX_receive is evaluated and
may raise. -/
def parseDispatch (m : Machine) : Machine × Option PyErr :=
  if m.label = LABEL_ESTA_ID_REQUEST then (sendESTAID m, none)
  else if m.label = LABEL_DEVICE_ID_REQUEST then (sendDEVICEID m, none)
  else if m.label = LABEL_SERIAL_NUMBER_REQUEST then (sendSERIALNUMBER m, none)
  else if m.label = LABEL_WIDGET_PARAMETER_REQUEST then (sendWIDGETPARAMETER m, none)
  else if m.label = LABEL_WIDGET_PARAMETER_EXTENDED_REQUEST then
    (sendWIDGETPARAMETEREXTENDED m, none)
  else
    match labelIsDMXReceive m with
    | .error e => (m, some e)
    | .ok true => (handleDMXDataReceived m, none)
    | .ok false => (m, none)

/-- DMXUSB._receive_and_parse: one byte through the state machine.  In the
STATE_END branch with a byte other than MSG_ENDMARK the source executes
pass, leaving every attribute unchanged. -/
def receiveAndParse (m : Machine) (b : Nat) : Machine × Option PyErr :=
  if m.state = STATE_START then
    (if b = MSG_STARTMARK then { m with state := STATE_LABEL } else m, none)
  else if m.state = STATE_LABEL then
    let m1 := { m with label := (b : Int) }
    match labelIsDMXReceive m1 with
    | .error e => (m1, some e)
    | .ok true => ({ bufferDataClear m1 with state := STATE_LEN_LSB }, none)
    | .ok false => ({ m1 with state := STATE_LEN_LSB }, none)
  else if m.state = STATE_LEN_LSB then
    ({ m with msg_length := b, state := STATE_LEN_MSB }, none)
  else if m.state = STATE_LEN_MSB then
    let len := m.msg_length ||| (b <<< 8)
    ({ m with msg_length := len,
              state := if len > 0 then STATE_DATA else STATE_END,
              data_rest_count := (len : Int) }, none)
  else if m.state = STATE_DATA then
    let m1 :=
      if m.buffer_data_index ≤ m.buffer_data.length then
        if m.buffer_data_index > 0 then
          { m with buffer_data := m.buffer_data.set (m.buffer_data_index - 1) b,
                   buffer_data_index := m.buffer_data_index + 1 }
        else { m with buffer_data_index := m.buffer_data_index + 1 }
      else m
    let m2 := { m1 with data_rest_count := m1.data_rest_count - 1 }
    (if m2.data_rest_count = 0 then { m2 with state := STATE_END } else m2, none)
  else if m.state = STATE_END then
    if b = MSG_ENDMARK then
      match parseDispatch m with
      | (m1, none) => ({ m1 with state := STATE_START }, none)
      | (m1, some e) => (m1, some e)
    else (m, none)
  else
    ({ m with state := STATE_START }, none)

/-- Feed a list of bytes one at a time through _receive_and_parse,
stopping at the first exception (in Python it would propagate out of
update). -/
def runBytes (m : Machine) (input : List Nat) : Machine × Option PyErr :=
  match input with
  | [] => (m, none)
  | b :: rest =>
    match receiveAndParse m b with
    | (m1, none) => runBytes m1 rest
    | (m1, some e) => (m1, some e)

/-- The uart-drain loop of DMXUSB.update: before each byte is parsed,
_last_action is set to the current time. -/
def updateDrain (m : Machine) (now : Rat) (input : List Nat) : Machine × Option PyErr :=
  match input with
  | [] => (m, none)
  | b :: rest =>
    match receiveAndParse { m with last_action := now } b with
    | (m1, none) => updateDrain m1 now rest
    | (m1, some e) => (m1, some e)

/-- DMXUSB.update restricted to the protocol core: drain the available
bytes, then reset the state machine if it is mid-frame and more than 0.1
seconds have passed since the last received byte.  The console
passthrough at the end of the Python method is I/O glue outside the
protocol and is not modelled.  All time.monotonic() readings within one
call are modelled by the single value now. -/
def update (m : Machine) (now : Rat) (input : List Nat) : Machine × Option PyErr :=
  match updateDrain m now input with
  | (m1, some e) => (m1, some e)
  | (m1, none) =>
    if m1.state ≠ STATE_START ∧ now - m1.last_action > 1/10 then
      (resetReceiveStatemachine m1 now, none)
    else (m1, none)

/-- DMXUSB.__init__ with an explicit initial clock value.  When the
universes_out argument is omitted it defaults to the profile field;
universes_in is fixed to 0. -/
def initDMXUSB (mode : DeviceMode) (universesOutArg : Option Nat)
    (serial : List Nat) (t0 : Rat) : Machine :=
  resetReceiveStatemachine
    { mode := mode,
      universes_out := universesOutArg.getD mode.UNIVERSE_OUT,
      universes_in := 0,
      serial_number := serial,
      state := STATE_START, label := LABEL_UNDEFINED, msg_length := 0,
      data_rest_count := 0,
      buffer_data := List.replicate MAX_CHANNELS 0,
      buffer_data_index := 0,
      last_action := t0, out := [], cb_calls := [] } t0

/-- A fresh decoder on the single-universe profile (the constructor default),
with an empty serial number and clock 0. -/
def singleProfileMachine : Machine :=
  initDMXUSB DEVICE_EMULATED_ULTRA_DMX_MICRO none [] 0

/-- A fresh decoder on the multi-universe profile (3 output universes). -/
def multiProfileMachine : Machine :=
  initDMXUSB DEVICE_DMXUSB none [] 0

/-- A decoder stuck in the End state, as after a complete header and payload. -/
def endStateMachine : Machine :=
  { singleProfileMachine with state := STATE_END, label := 77 }

/-- A decoder mid-frame in the Label state whose last byte arrived at time 0. -/
def stalledMachine : Machine :=
  { singleProfileMachine with state := STATE_LABEL }

/-- A decoder in the Data state whose write index has run past the buffer
capacity (600 bytes of a long frame already consumed). -/
def overrunDataMachine : Machine :=
  { singleProfileMachine with
      state := STATE_DATA, label := 6, msg_length := 600,
      data_rest_count := 5, buffer_data_index := 600 }

/-- The constructor arguments and profile-derived fields that must stay
fixed for the lifetime of the instance. -/
def preservesConfig (m m2 : Machine) : Prop :=
  m2.mode = m.mode ∧ m2.universes_out = m.universes_out ∧
  m2.universes_in = m.universes_in ∧ m2.serial_number = m.serial_number

/-- Claim C1: feeding any label byte of 100 or above in the Label state is
absorbed with no error.  This fails on the code: _label_is_DMX_receive
evaluates the missing attribute universes_out and raises AttributeError,
for every profile.  The theorem evaluates the code at the failing inputs:
after a start mark, any label byte at least 100 makes processing stop
with an AttributeError. -/
theorem C1_label_ge_100_raises (mode : DeviceMode) (uo : Option Nat)
    (serial : List Nat) (t0 : Rat) (b : Nat) (hb : 100 ≤ b) :
    (runBytes (initDMXUSB mode uo serial t0) [126, b]).2 = some PyErr.attributeError := by
  have hb6 : ¬ ((b : Int) = LABEL_DMX_DATA) := by
    simp only [LABEL_DMX_DATA]
    omega
  have hb100 : LABEL_DMX_DATA2 ≤ (b : Int) := by
    simp only [LABEL_DMX_DATA2]
    exact_mod_cast hb
  simp [runBytes, receiveAndParse, initDMXUSB, resetReceiveStatemachine, bufferDataClear,
        labelIsDMXReceive, hb6, hb100, STATE_START, STATE_LABEL, MSG_STARTMARK,
        LABEL_UNDEFINED]

/-- Claim C1 witness: the concrete failing input, label byte 100 on the
single-universe profile. -/
theorem C1_witness :
    (runBytes (initDMXUSB DEVICE_EMULATED_ULTRA_DMX_MICRO none [] 0) [126, 100]).2
      = some PyErr.attributeError :=
  C1_label_ge_100_raises DEVICE_EMULATED_ULTRA_DMX_MICRO none [] 0 100 (by decide)

/-- Claim C2 counterexample: after the frame header [126, 77, 0, 0] the
parser is in the End state; the next byte 0 is not the end mark, yet the
state does not return to Start (it stays End) and the frame is not
discarded.  The claim as stated is therefore false at this input. -/
theorem C2_counterexample :
    (runBytes singleProfileMachine [126, 77, 0, 0, 0]).1.state = STATE_END ∧
    ¬ ((runBytes singleProfileMachine [126, 77, 0, 0, 0]).1.state = STATE_START) := by
  decide

/-- Claim C2 amended: when the parser is in the End state and the byte is
not the end mark, nothing happens at all: no dispatch, no reset, every
attribute unchanged — the parser stays in End awaiting an end mark. -/
theorem C2_end_state_nonmark_noop (m : Machine) (b : Nat)
    (hs : m.state = STATE_END) (hb : ¬ (b = MSG_ENDMARK)) :
    receiveAndParse m b = (m, none) := by
  simp [receiveAndParse, hs, hb, STATE_START, STATE_LABEL, STATE_LEN_LSB,
        STATE_LEN_MSB, STATE_DATA, STATE_END]

/-- Claim C2 amended witness: the End-state machine with the non-mark
byte 0 is left exactly as it was. -/
theorem C2_amended_witness :
    receiveAndParse endStateMachine 0 = (endStateMachine, none) :=
  C2_end_state_nonmark_noop endStateMachine 0 rfl (by decide)

/-- Claim C3: the encoder should emit the little-endian payload length
with no offset, but the source computes the high byte from length + 1
while the low byte uses the length unchanged.  At payload length 255 the
emitted header length bytes are [255, 1], declaring 511, instead of
[255, 0]. -/
theorem C3_length_high_byte_off_by_one :
    sendMessageBytes 6 (List.replicate 255 0)
      = [126, 6, 255, 1] ++ List.replicate 255 0 ++ [231] ∧
    ¬ (sendMessageBytes 6 (List.replicate 255 0)
        = sendMessageBytesSpec 6 (List.replicate 255 0)) := by
  decide

/-- Claim C4: encode-then-parse should return the original frame, but at
label 6 with a payload of 255 sevens the encoder declares length 511, so
the parser consumes the end mark (231) as payload data and is still
mid-frame in the Data state after the whole encoded frame: no callback
fired, and the end mark leaked into the buffer. -/
theorem C4_roundtrip_broken_at_length_255 :
    (runBytes singleProfileMachine (sendMessageBytes 6 (List.replicate 255 7))).2 = none ∧
    (runBytes singleProfileMachine (sendMessageBytes 6 (List.replicate 255 7))).1.state
      = STATE_DATA ∧
    (runBytes singleProfileMachine (sendMessageBytes 6 (List.replicate 255 7))).1.cb_calls
      = [] ∧
    (runBytes singleProfileMachine (sendMessageBytes 6 (List.replicate 255 7))).1.buffer_data
      = List.replicate 254 7 ++ 231 :: List.replicate 257 0 := by
  decide

/-- Claim C5 counterexample: the ESTA-ID reply to [126, 77, 0, 0, 231] on
the single-universe profile is not the claimed byte sequence with the
ESTA id low byte (107) first. -/
theorem C5_counterexample :
    ¬ ((runBytes singleProfileMachine [126, 77, 0, 0, 231]).1.out
        = [126, 77, 8, 0, 107, 106, 68, 77, 88, 85, 83, 66, 231]) := by
  decide

/-- Claim C5 amended: the reply is exactly one message whose ESTA id is
emitted high byte (106) first, because bytes(divmod(esta, 256)) yields
the quotient before the remainder. -/
theorem C5_actual_reply :
    (runBytes singleProfileMachine [126, 77, 0, 0, 231]).1.out
      = [126, 77, 8, 0, 106, 107, 68, 77, 88, 85, 83, 66, 231] := by
  decide

/-- Claim C6: on the multi-universe profile a frame with label 101 should
route to universe 1; instead the label byte 101 already raises
AttributeError inside _label_is_DMX_receive (missing attribute
universes_out), the frame is never completed and the callback never
fires. -/
theorem C6_label_101_raises :
    (runBytes multiProfileMachine [126, 101, 2, 0, 0, 255, 231]).2
      = some PyErr.attributeError ∧
    (runBytes multiProfileMachine [126, 101, 2, 0, 0, 255, 231]).1.cb_calls = [] := by
  decide

/-- Claim C10: the zero-length DMX frame [126, 6, 0, 0, 231] on the
single-universe profile completes without error and invokes the callback
exactly once, with universe 0 and an all-zero 512-byte buffer. -/
theorem C10_zero_length_dmx_frame :
    (runBytes singleProfileMachine [126, 6, 0, 0, 231]).2 = none ∧
    (runBytes singleProfileMachine [126, 6, 0, 0, 231]).1.cb_calls
      = [(0, List.replicate 512 0)] ∧
    (runBytes singleProfileMachine [126, 6, 0, 0, 231]).1.state = STATE_START := by
  decide

/-- Claim C7: in the Data state every byte is processed without error, is
always counted against the remaining-byte counter, leaves the buffer
unchanged when the write index is already past the 512 writable slots,
and any buffer change is a write at an index between 0 and 511. -/
theorem C7_data_bytes_counted_and_bounded (m : Machine) (b : Nat)
    (hs : m.state = STATE_DATA) (hlen : m.buffer_data.length = 512) :
    (receiveAndParse m b).2 = none ∧
    (receiveAndParse m b).1.data_rest_count = m.data_rest_count - 1 ∧
    (512 < m.buffer_data_index → (receiveAndParse m b).1.buffer_data = m.buffer_data) ∧
    ((receiveAndParse m b).1.buffer_data = m.buffer_data ∨
      ∃ j, j < 512 ∧ (receiveAndParse m b).1.buffer_data = m.buffer_data.set j b) := by
  simp only [receiveAndParse, hs, STATE_START, STATE_LABEL, STATE_LEN_LSB, STATE_LEN_MSB,
    STATE_DATA, STATE_END]
  norm_num
  split_ifs <;>
    first
      | exact ⟨rfl, fun h => absurd h (by omega), Or.inr ⟨m.buffer_data_index - 1, by omega, rfl⟩⟩
      | exact ⟨rfl, fun h => rfl, Or.inl rfl⟩

/-- Claim C7 witness: a Data-state decoder whose write index has reached
600 processes byte 9 with no error, counts it, and leaves the buffer as
it was. -/
theorem C7_witness :
    (receiveAndParse overrunDataMachine 9).2 = none ∧
    (receiveAndParse overrunDataMachine 9).1.data_rest_count
      = overrunDataMachine.data_rest_count - 1 ∧
    (512 < overrunDataMachine.buffer_data_index →
      (receiveAndParse overrunDataMachine 9).1.buffer_data = overrunDataMachine.buffer_data) ∧
    ((receiveAndParse overrunDataMachine 9).1.buffer_data = overrunDataMachine.buffer_data ∨
      ∃ j, j < 512 ∧ (receiveAndParse overrunDataMachine 9).1.buffer_data
        = overrunDataMachine.buffer_data.set j 9) :=
  C7_data_bytes_counted_and_bounded overrunDataMachine 9 rfl (by decide)

/-- Claim C8: calling update with no available bytes while mid-frame and
more than 0.1 seconds after the last byte performs a full reset: state
Start, label and length cleared, write index reset, buffer zero-filled. -/
theorem C8_idle_timeout_resets (m : Machine) (now : Rat)
    (hs : ¬ (m.state = STATE_START)) (ht : now - m.last_action > 1/10) :
    update m now [] =
      ({ m with
          state := STATE_START, label := LABEL_UNDEFINED, msg_length := 0,
          buffer_data_index := 0,
          buffer_data := List.replicate m.buffer_data.length 0,
          last_action := now }, none) := by
  have key : update m now [] = (resetReceiveStatemachine m now, none) := by
    unfold update updateDrain
    exact if_pos ⟨hs, ht⟩
  rw [key]
  rfl

/-- Claim C8 witness: a decoder stalled in the Label state since time 0,
polled at time 1 with no input, is fully reset. -/
theorem C8_witness :
    update stalledMachine 1 [] =
      ({ stalledMachine with
          state := STATE_START, label := LABEL_UNDEFINED, msg_length := 0,
          buffer_data_index := 0,
          buffer_data := List.replicate stalledMachine.buffer_data.length 0,
          last_action := 1 }, none) :=
  C8_idle_timeout_resets stalledMachine 1 (by decide) (by norm_num [stalledMachine,
    singleProfileMachine, initDMXUSB, resetReceiveStatemachine, bufferDataClear])

theorem preservesConfig_refl (m : Machine) : preservesConfig m m := ⟨rfl, rfl, rfl, rfl⟩

theorem preservesConfig_trans {a b c : Machine}
    (h1 : preservesConfig a b) (h2 : preservesConfig b c) : preservesConfig a c :=
  ⟨h2.1.trans h1.1, h2.2.1.trans h1.2.1, h2.2.2.1.trans h1.2.2.1, h2.2.2.2.trans h1.2.2.2⟩

theorem preservesConfig_foldl {α : Type} (f : Machine → α → Machine)
    (hf : ∀ mm a, preservesConfig mm (f mm a)) :
    ∀ (l : List α) (mm : Machine), preservesConfig mm (l.foldl f mm)
  | [], mm => preservesConfig_refl mm
  | a :: l, mm => preservesConfig_trans (hf mm a) (preservesConfig_foldl f hf l (f mm a))

theorem preservesConfig_handleDMX (m : Machine) :
    preservesConfig m (handleDMXDataReceived m) := by
  unfold handleDMXDataReceived
  split_ifs <;>
    first
      | exact ⟨rfl, rfl, rfl, rfl⟩
      | exact preservesConfig_foldl (fun acc (u : Nat) => callbackDmxin acc (u : Int))
          (fun mm u => ⟨rfl, rfl, rfl, rfl⟩) (List.range m.universes_out) m

theorem preservesConfig_dispatch (m : Machine) : preservesConfig m (parseDispatch m).1 := by
  unfold parseDispatch
  split_ifs <;> try exact ⟨rfl, rfl, rfl, rfl⟩
  cases h : labelIsDMXReceive m with
  | error e => simp only [h]; exact preservesConfig_refl m
  | ok tf =>
    cases tf
    · simp only [h]; exact preservesConfig_refl m
    · simp only [h]; exact preservesConfig_handleDMX m

theorem preservesConfig_step (m : Machine) (b : Nat) :
    preservesConfig m (receiveAndParse m b).1 := by
  unfold receiveAndParse
  dsimp only
  repeat' split
  all_goals try exact ⟨rfl, rfl, rfl, rfl⟩
  all_goals
    rename_i heq
    have h := preservesConfig_dispatch m
    rw [heq] at h
    exact h

theorem preservesConfig_updateDrain (now : Rat) (input : List Nat) :
    ∀ m : Machine, preservesConfig m (updateDrain m now input).1 := by
  induction input with
  | nil => exact fun m => preservesConfig_refl m
  | cons b rest ih =>
    intro m
    unfold updateDrain
    have hstep := preservesConfig_step { m with last_action := now } b
    cases h : receiveAndParse { m with last_action := now } b with
    | mk m1 err =>
      rw [h] at hstep
      cases err
      · exact preservesConfig_trans hstep (ih m1)
      · exact hstep

/-- Claim C9: one full update call (parsing, dispatch, reply sending and
timeout reset included) never changes the active profile, the configured
universe counts, or the serial number. -/
theorem C9_config_fixed_at_construction (m : Machine) (now : Rat) (input : List Nat) :
    (update m now input).1.mode = m.mode ∧
    (update m now input).1.universes_out = m.universes_out ∧
    (update m now input).1.universes_in = m.universes_in ∧
    (update m now input).1.serial_number = m.serial_number := by
  have hd := preservesConfig_updateDrain now input m
  have hfin : preservesConfig m (update m now input).1 := by
    unfold update
    cases h : updateDrain m now input with
    | mk m1 err =>
      rw [h] at hd
      cases err with
      | some e => exact hd
      | none =>
        dsimp only
        split
        · exact preservesConfig_trans hd ⟨rfl, rfl, rfl, rfl⟩
        · exact hd
  exact hfin

end DMXUSB
